import Mathlib

/-!
Verification of the recipe-planner core (Section Classifier and Quantity
Scaler) against its design specification.

The Python sources `src/modules/scaling.py`, `src/modules/importer.py` and the
inline copy of the scaler in `src/app.py` are shallowly embedded here: strings
become `List Char`, Python floats become `ℚ` (all quantities the design cares
about are exactly representable), Python `round` (banker's rounding) becomes
`pyRound`, and code that can raise returns a `PyResult` whose `exn` constructor
records the Python exception class. Each regular expression used by the code is
small and backtracking-free on its pattern class, so it is translated to a
direct character-level matcher.
-/

/- Core marks the rational arithmetic operations `@[irreducible]`, which the
kernel ignores but which stops `decide` and `rfl` from evaluating concrete
runs of the embedded code.  Restore their natural reducibility. -/
set_option allowUnsafeReducibility true in
attribute [semireducible] Rat.inv Rat.mul Rat.add Rat.sub Rat.div

/-- Python exception classes that the embedded code can raise. -/
inductive PyErr
  | zeroDivisionError
  | attributeError
deriving DecidableEq, Repr

/-- Result of running a piece of Python code: a value or a raised exception. -/
inductive PyResult (α : Type)
  | ok (a : α)
  | exn (e : PyErr)
deriving DecidableEq, Repr

/-- Python whitespace as matched by `str.strip`/`str.lstrip` and `\s`
(restricted to the ASCII whitespace actually reachable in this code base). -/
def isPySpace (c : Char) : Bool :=
  c = ' ' || c = '\t' || c = '\n' || c = '\r' || c = '\x0b' || c = '\x0c'

/-- ASCII decimal digit, the `\d` class on the inputs this code handles. -/
def isDigitCh (c : Char) : Bool :=
  '0' ≤ c && c ≤ '9'

/-- The dash-like range separators of `RANGE_SEP = r"[\-–—]"`. -/
def isDashCh (c : Char) : Bool :=
  c = '-' || c = '–' || c = '—'

/-- The character class `[a-zäöüA-ZÄÖÜ]` used by `_detect_unit_after` and by
the classifier's word heuristic. -/
def isUnitLetter (c : Char) : Bool :=
  ('a' ≤ c && c ≤ 'z') || ('A' ≤ c && c ≤ 'Z') ||
  c = 'ä' || c = 'ö' || c = 'ü' || c = 'Ä' || c = 'Ö' || c = 'Ü'

/-- Value of a run of decimal digits (most significant first). -/
def digitsToNat (ds : List Char) : ℕ :=
  ds.foldl (fun a c => 10 * a + (c.toNat - '0'.toNat)) 0

/-- Matcher for the number pattern `\d+[\.,]?\d*`: greedy digits, an optional
single `.` or `,`, then greedy digits.  Returns the matched text and the rest
of the input.  On this pattern greedy matching never needs backtracking. -/
def numToken (s : List Char) : Option (List Char × List Char) :=
  let d1 := s.takeWhile isDigitCh
  let r1 := s.dropWhile isDigitCh
  if d1 = [] then none
  else
    match r1 with
    | c :: r2 =>
      if c = '.' || c = ',' then
        some (d1 ++ c :: r2.takeWhile isDigitCh, r2.dropWhile isDigitCh)
      else some (d1, r1)
    | [] => some (d1, [])

/-- Value of a matched number text, as computed by
`float(text.replace(",", "."))`: integer part plus decimal fraction. -/
def numValue (t : List Char) : ℚ :=
  let d1 := t.takeWhile isDigitCh
  match t.dropWhile isDigitCh with
  | _ :: ds => (digitsToNat d1 : ℚ) + (digitsToNat ds : ℚ) / ((10 : ℚ) ^ ds.length)
  | [] => (digitsToNat d1 : ℚ)

/-- Matcher for the range pattern
`(\d+[\.,]?\d*)\s*[\-–—]\s*(\d+[\.,]?\d*)` (anchored at the start).
Returns the total match length and the two number groups. -/
def rangeMatch (s : List Char) : Option (ℕ × List Char × List Char) :=
  match numToken s with
  | none => none
  | some (t1, r1) =>
    let sp1 := r1.takeWhile isPySpace
    match r1.dropWhile isPySpace with
    | c :: r3 =>
      if isDashCh c then
        let sp2 := r3.takeWhile isPySpace
        match numToken (r3.dropWhile isPySpace) with
        | none => none
        | some (t2, _) =>
          some (t1.length + sp1.length + 1 + sp2.length + t2.length, t1, t2)
      else none
    | [] => none

/-- Matcher for the mixed-fraction pattern `(\d+)\s+(\d+)/(\d+)` (anchored).
Returns the total match length and the three digit groups as naturals. -/
def mixedMatch (s : List Char) : Option (ℕ × ℕ × ℕ × ℕ) :=
  let d1 := s.takeWhile isDigitCh
  let r1 := s.dropWhile isDigitCh
  if d1 = [] then none
  else
    let sp := r1.takeWhile isPySpace
    let r2 := r1.dropWhile isPySpace
    if sp = [] then none
    else
      let d2 := r2.takeWhile isDigitCh
      match r2.dropWhile isDigitCh with
      | '/' :: r4 =>
        let d3 := r4.takeWhile isDigitCh
        if d2 = [] ∨ d3 = [] then none
        else some (d1.length + sp.length + d2.length + 1 + d3.length,
                   digitsToNat d1, digitsToNat d2, digitsToNat d3)
      | _ => none

/-- The `UNICODE_FRACTIONS` table: each vulgar-fraction glyph and its exact
rational value. -/
def fracGlyphVal : Char → Option ℚ
  | '¼' => some (1/4)
  | '½' => some (1/2)
  | '¾' => some (3/4)
  | '⅓' => some (1/3)
  | '⅔' => some (2/3)
  | '⅛' => some (1/8)
  | '⅜' => some (3/8)
  | '⅝' => some (5/8)
  | '⅞' => some (7/8)
  | _ => none

/-- Matcher for `\s*(\d+)?\s*([¼½¾⅓⅔⅛⅜⅝⅞])` (anchored).  Returns the match
length, the optional integer group's value (0 when absent, as the code
defaults the base to 0.0), and the glyph's table value. -/
def uniMatch (txt : List Char) : Option (ℕ × ℕ × ℚ) :=
  let sp0 := txt.takeWhile isPySpace
  let r1 := txt.dropWhile isPySpace
  let ds := r1.takeWhile isDigitCh
  let r2 := r1.dropWhile isDigitCh
  let sp1 := r2.takeWhile isPySpace
  match r2.dropWhile isPySpace with
  | c :: _ =>
    match fracGlyphVal c with
    | some v => some (sp0.length + ds.length + sp1.length + 1, digitsToNat ds, v)
    | none => none
  | [] => none

/-- `_unicode_fracs_to_float` from `src/modules/scaling.py`: the value of a
leading optional integer followed by a vulgar-fraction glyph, or `none` when
the pattern does not match.  (`txt or ""` in the source is the identity on the
strings it ever receives.) -/
def unicode_fracs_to_float (txt : List Char) : Option ℚ :=
  match uniMatch txt with
  | some (_, b, v) => some ((b : ℚ) + v)
  | none => none

/-- A parsed leading quantity: the tuple
`(kind, start, end, value(s), had_comma)` returned by
`_parse_leading_quantity`. -/
inductive Parsed
  | range (start stop : ℕ) (a b : ℚ) (hadComma : Bool)
  | single (start stop : ℕ) (v : ℚ) (hadComma : Bool)
deriving DecidableEq, Repr

/-- `_parse_leading_quantity` from `src/modules/scaling.py`.  Tries, in order:
range, mixed fraction (whose `float(b)/float(c)` raises `ZeroDivisionError`
when the denominator is zero), Unicode fraction (value read from the first
four characters, span from re-matching the whole stripped line; were the
re-match to fail, `m.start(0)` on `None` would raise `AttributeError`), and
simple number.  Spans are offsets into the original, unstripped line. -/
def parse_leading_quantity (line : List Char) : PyResult (Option Parsed) :=
  let s := line.dropWhile isPySpace
  let off := line.length - s.length
  match rangeMatch s with
  | some (len, t1, t2) =>
    .ok (some (.range off (off + len) (numValue t1) (numValue t2) (t1.contains ',')))
  | none =>
    match mixedMatch s with
    | some (len, a, b, c) =>
      if c = 0 then .exn .zeroDivisionError
      else .ok (some (.single off (off + len) ((a : ℚ) + (b : ℚ) / (c : ℚ)) false))
    | none =>
      match unicode_fracs_to_float (s.take 4) with
      | some uf =>
        (match uniMatch s with
         | some (len, _, _) => .ok (some (.single off (off + len) uf false))
         | none => .exn .attributeError)
      | none =>
        match numToken s with
        | some (t, _) => .ok (some (.single off (off + t.length) (numValue t) (t.contains ',')))
        | none => .ok none

/-- Python `str.lower` restricted to the characters that can reach the unit
matcher: ASCII letters and the German umlauts. -/
def toLowerPy (c : Char) : Char :=
  if 'A' ≤ c && c ≤ 'Z' then Char.ofNat (c.toNat + 32)
  else if c = 'Ä' then 'ä'
  else if c = 'Ö' then 'ö'
  else if c = 'Ü' then 'ü'
  else c

/-- Python `str.strip`: drop leading and trailing whitespace. -/
def stripBoth (s : List Char) : List Char :=
  ((s.dropWhile isPySpace).reverse.dropWhile isPySpace).reverse

/-- `token.replace("ä","ae").replace("ö","oe").replace("ü","ue")`: the three
replacements are independent, so one traversal performs all of them. -/
def foldUmlauts (s : List Char) : List Char :=
  s.foldr
    (fun c acc =>
      if c = 'ä' then 'a' :: 'e' :: acc
      else if c = 'ö' then 'o' :: 'e' :: acc
      else if c = 'ü' then 'u' :: 'e' :: acc
      else c :: acc) []

/-- `_detect_unit_after` from `src/modules/scaling.py`: lowercase the stripped
tail after the quantity span, take the leading `[a-zäöüA-ZÄÖÜ]+` token, and
fold umlauts to ASCII digraphs.  `none` when no letter follows. -/
def detect_unit_after (line : List Char) (endIdx : ℕ) : Option (List Char) :=
  let tail := (stripBoth (line.drop endIdx)).map toLowerPy
  match tail with
  | c :: _ =>
    if isUnitLetter c then some (foldUmlauts (tail.takeWhile isUnitLetter))
    else none
  | [] => none

/-- Floor of a rational, computed from its reduced numerator and (positive)
denominator by floor division. -/
def ratFloor (x : ℚ) : ℤ :=
  x.num.fdiv (x.den : ℤ)

/-- Absolute value of a rational, written out so it evaluates by cases. -/
def ratAbs (x : ℚ) : ℚ :=
  if x < 0 then -x else x

/-- Python `round(x)`: round half to even, to an integer. -/
def pyRound (x : ℚ) : ℤ :=
  let f := ratFloor x
  let r := x - (f : ℚ)
  if r < 1/2 then f
  else if 1/2 < r then f + 1
  else if f % 2 = 0 then f else f + 1

/-- Python `round(x, 2)`: round half to even at two decimal places. -/
def pyRound2 (x : ℚ) : ℚ :=
  (pyRound (x * 100) : ℚ) / 100

/-- The three rounding behaviours appearing in `UNITS_ROUNDING`. -/
inductive RoundRule
  | toInt
  | toHalf
  | toTwoDec
deriving DecidableEq, Repr

/-- The `UNITS_ROUNDING` table of `src/modules/scaling.py`, keyed exactly by
the source's dictionary keys (note that three keys keep their umlauts). -/
def UNITS_ROUNDING (u : List Char) : Option RoundRule :=
  if u = ("g").data ∨ u = ("gramm").data ∨ u = ("ml").data ∨
     u = ("stk").data ∨ u = ("stück").data then some .toInt
  else if u = ("el").data ∨ u = ("tl").data ∨
          u = ("esslöffel").data ∨ u = ("teelöffel").data ∨
          u = ("tasse").data ∨ u = ("cup").data then some .toHalf
  else if u = ("kg").data ∨ u = ("l").data then some .toTwoDec
  else none

/-- The rounding lambdas stored in `UNITS_ROUNDING`. -/
def applyRule (r : RoundRule) (x : ℚ) : ℚ :=
  match r with
  | .toInt => (pyRound x : ℚ)
  | .toHalf => (pyRound (x * 2) : ℚ) / 2
  | .toTwoDec => pyRound2 x

/-- `_apply_round` from `src/modules/scaling.py`: look the unit up in the
table and apply its rule; identity for an absent or unknown unit. -/
def apply_round (unit : Option (List Char)) (x : ℚ) : ℚ :=
  match unit with
  | some u =>
    match UNITS_ROUNDING u with
    | some r => applyRule r x
    | none => x
  | none => x

/-- Decimal digits of a natural number, most significant first. -/
def natDigits (n : ℕ) : List Char :=
  Nat.toDigits 10 n

/-- Python `str(i)` for an integer. -/
def intStr (i : ℤ) : List Char :=
  if i < 0 then '-' :: natDigits i.natAbs else natDigits i.natAbs

/-- Python `f"{v:.2f}"`: fixed two-decimal rendering (round half to even). -/
def fixed2 (v : ℚ) : List Char :=
  let n := pyRound (v * 100)
  let sign : List Char := if v < 0 then ['-'] else []
  let ip := n.natAbs / 100
  let fp := n.natAbs % 100
  sign ++ natDigits ip ++ '.' :: (if fp < 10 then '0' :: natDigits fp else natDigits fp)

/-- Python `txt.rstrip("0")`. -/
def rstripZeros (s : List Char) : List Char :=
  (s.reverse.dropWhile (fun c => c = '0')).reverse

/-- Python `txt.rstrip(".")`. -/
def rstripDot (s : List Char) : List Char :=
  (s.reverse.dropWhile (fun c => c = '.')).reverse

/-- `_format_number` from `src/modules/scaling.py`: two-decimal rendering when
the value is more than `1e-6` away from its nearest integer, else the bare
integer; then `rstrip("0").rstrip(".")` (applied to both branches, so an
integer rendering ending in `0` also loses digits); finally `.`→`,` when the
original numeral used a comma. -/
def format_number (value : ℚ) (preferComma : Bool) : List Char :=
  let txt := if ratAbs (value - (pyRound value : ℚ)) > 1/1000000
             then fixed2 value else intStr (pyRound value)
  let txt := rstripDot (rstripZeros txt)
  if preferComma then txt.map (fun c => if c = '.' then ',' else c) else txt

/-- `scale_line_smart` from `src/modules/scaling.py`: parse the leading
quantity (propagating any exception), detect the unit after the span, scale,
round, format, and splice the rewritten numeral(s) over the span; a range is
rejoined with an en-dash.  A line with no leading quantity is returned
unchanged. -/
def scale_line_smart (line : List Char) (factor : ℚ) : PyResult (List Char) :=
  match parse_leading_quantity line with
  | .exn e => .exn e
  | .ok none => .ok line
  | .ok (some p) =>
    match p with
    | .range start stop a b hadComma =>
      let unit := detect_unit_after line stop
      let a' := apply_round unit (a * factor)
      let b' := apply_round unit (b * factor)
      .ok (line.take start ++ format_number a' hadComma ++
           '–' :: format_number b' hadComma ++ line.drop stop)
    | .single start stop v hadComma =>
      let unit := detect_unit_after line stop
      let x := apply_round unit (v * factor)
      .ok (line.take start ++ format_number x hadComma ++ line.drop stop)

/-- Word characters for the `\b` boundary in the header regexes (`re.UNICODE`
word characters restricted to those reachable in this code base). -/
def isWordCh (c : Char) : Bool :=
  ('a' ≤ c && c ≤ 'z') || ('A' ≤ c && c ≤ 'Z') || isDigitCh c || c = '_' ||
  c = 'ä' || c = 'ö' || c = 'ü' || c = 'Ä' || c = 'Ö' || c = 'Ü' || c = 'ß'

/-- Case-insensitive anchored match of one of the keywords followed by a word
boundary: the shape of `^(kw1|kw2|...)\b` under `re.I`. -/
def headerMatch (kws : List (List Char)) (l : List Char) : Bool :=
  kws.any fun kw =>
    ((l.take kw.length).map toLowerPy = kw) &&
    (match l.drop kw.length with
     | [] => true
     | c :: _ => !isWordCh c)

/-- `RE_ING_HEADER = ^(zutaten|ingredients)\b`, case-insensitive. -/
def ingHeader (l : List Char) : Bool :=
  headerMatch [("zutaten").data, ("ingredients").data] l

/-- `RE_STEPS_HEADER = ^(zubereitung|anleitung|directions|method)\b`,
case-insensitive. -/
def stepsHeader (l : List Char) : Bool :=
  headerMatch [("zubereitung").data, ("anleitung").data,
               ("directions").data, ("method").data] l

/-- The single-character bullet markers of
`BULLET = ^\s*([\-•\*•‣⁃]|\d+\.)\s+` (U+2022 repeats `•`). -/
def isBulletMark (c : Char) : Bool :=
  c = '-' || c = '•' || c = '*' || c = '‣' || c = '⁃'

/-- Anchored match length of the `BULLET` pattern: optional whitespace, a
single marker glyph or `digits.`, then at least one whitespace character. -/
def bulletLen (l : List Char) : Option ℕ :=
  let sp := l.takeWhile isPySpace
  let r1 := l.dropWhile isPySpace
  let marker : Option ℕ :=
    match r1 with
    | c :: _ =>
      if isBulletMark c then some 1
      else
        let ds := r1.takeWhile isDigitCh
        if ds ≠ [] && (r1.drop ds.length).head? = some '.' then some (ds.length + 1)
        else none
    | [] => none
  match marker with
  | some mlen =>
    let sp2 := (r1.drop mlen).takeWhile isPySpace
    if sp2 = [] then none else some (sp.length + mlen + sp2.length)
  | none => none

/-- `BULLET.search(l)` as a Boolean (the pattern is `^`-anchored, so search
and match coincide). -/
def bulletSearch (l : List Char) : Bool :=
  (bulletLen l).isSome

/-- `BULLET.sub("", l)`: remove the leading bullet marker and its surrounding
whitespace (the anchored pattern matches at most once). -/
def bulletSub (l : List Char) : List Char :=
  match bulletLen l with
  | some n => l.drop n
  | none => l

/-- The classifier's word heuristic `re.match(r"^\d*\s?[a-zA-ZäöüÄÖÜ]+", l)`:
optional digits, at most one whitespace character, then a letter. -/
def wordLike (l : List Char) : Bool :=
  match l.dropWhile isDigitCh with
  | [] => false
  | c :: rest =>
    if isUnitLetter c then true
    else if isPySpace c then
      match rest with
      | d :: _ => isUnitLetter d
      | [] => false
    else false

/-- `len(l.split())`: the number of maximal whitespace-free runs. -/
def countWords (l : List Char) : ℕ :=
  (l.foldl
    (fun (st : Bool × ℕ) c =>
      if isPySpace c then (false, st.2)
      else if st.1 then (true, st.2) else (true, st.2 + 1))
    (false, 0)).2

/-- The classifier's mode variable: `None`, `"ing"` or `"steps"`. -/
inductive Mode
  | start
  | ing
  | steps
deriving DecidableEq, Repr

/-- The loop state of `guess_sections`: current mode and the two output
accumulators. -/
structure GS where
  mode : Mode
  ings : List (List Char)
  steps : List (List Char)
deriving DecidableEq, Repr

/-- One iteration of the `for l in lines` loop of `guess_sections`
(`src/modules/importer.py`): header lines switch the mode and are consumed;
in ingredient mode a bullet or word-like line is collected (marker stripped)
while longer free prose switches to step mode; in step mode every non-empty
line is collected with its marker stripped.  The two trailing `if`s are
sequential, so a line that just switched the mode to steps is itself
collected as a step. -/
def gsStep (st : GS) (l : List Char) : GS :=
  if ingHeader l then { st with mode := .ing }
  else if stepsHeader l then { st with mode := .steps }
  else
    let st :=
      if st.mode = .ing then
        if bulletSearch l || wordLike l then { st with ings := st.ings ++ [bulletSub l] }
        else if !l.isEmpty && countWords l > 3 then { st with mode := .steps }
        else st
      else st
    if st.mode = .steps && !l.isEmpty then { st with steps := st.steps ++ [bulletSub l] }
    else st

/-- `guess_sections` from `src/modules/importer.py`: run the header-driven
pass; if it produced no ingredients, fall back to the first contiguous run of
bullet lines (markers stripped) as ingredients, and take as steps every
non-empty line after the index found by `lines.index(ing_block[-1])` — which
searches for the *stripped* text and so defaults to 0 whenever the stripped
last bullet line is not itself an input line. -/
def guess_sections (lines : List (List Char)) :
    List (List Char) × List (List Char) :=
  let st := lines.foldl gsStep ⟨Mode.start, [], []⟩
  if st.ings = [] then
    let ingBlock :=
      ((lines.dropWhile (fun l => !bulletSearch l)).takeWhile bulletSearch).map bulletSub
    match ingBlock.getLast? with
    | some last =>
      let idx := if lines.contains last then lines.indexOf last else 0
      (ingBlock, (lines.drop (idx + 1)).filter (fun l => !l.isEmpty))
    | none => (st.ings, st.steps)
  else (st.ings, st.steps)

/-! The cookbook page of `src/app.py` (lines 451–524) re-defines the scaler
inline.  Its helpers are embedded below under `app_` names.  The regular
expressions and both lookup tables are textually identical to the module's,
so the low-level matchers (`numToken`, `mixedMatch`, `uniMatch`, …) are
shared; the mid-level functions are re-translated from the `app.py` text. -/

/-- `_unicode_fracs_to_float` as defined inline in `src/app.py`: identical to
the module version except for an explicit `if not txt: return None` guard
before the regex match. -/
def app_unicode_fracs_to_float (txt : List Char) : Option ℚ :=
  if txt.isEmpty then none
  else
    match uniMatch txt with
    | some (_, b, v) => some ((b : ℚ) + v)
    | none => none

/-- `_parse_leading_quantity` as defined inline in `src/app.py`. -/
def app_parse_leading_quantity (line : List Char) : PyResult (Option Parsed) :=
  let s := line.dropWhile isPySpace
  let off := line.length - s.length
  match rangeMatch s with
  | some (len, t1, t2) =>
    .ok (some (.range off (off + len) (numValue t1) (numValue t2) (t1.contains ',')))
  | none =>
    match mixedMatch s with
    | some (len, a, b, c) =>
      if c = 0 then .exn .zeroDivisionError
      else .ok (some (.single off (off + len) ((a : ℚ) + (b : ℚ) / (c : ℚ)) false))
    | none =>
      match app_unicode_fracs_to_float (s.take 4) with
      | some uf =>
        (match uniMatch s with
         | some (len, _, _) => .ok (some (.single off (off + len) uf false))
         | none => .exn .attributeError)
      | none =>
        match numToken s with
        | some (t, _) => .ok (some (.single off (off + t.length) (numValue t) (t.contains ',')))
        | none => .ok none

/-- `_detect_unit_after` as defined inline in `src/app.py` (the module version
writes `line[end_idx:] or ""` where the page writes `line[end_idx:]`; both
denote the same string). -/
def app_detect_unit_after (line : List Char) (endIdx : ℕ) : Option (List Char) :=
  let tail := (stripBoth (line.drop endIdx)).map toLowerPy
  match tail with
  | c :: _ =>
    if isUnitLetter c then some (foldUmlauts (tail.takeWhile isUnitLetter))
    else none
  | [] => none

/-- The inline `UNITS_ROUNDING` dictionary of `src/app.py`: the same keys and
lambdas as the module's table. -/
def app_UNITS_ROUNDING (u : List Char) : Option RoundRule :=
  if u = ("g").data ∨ u = ("gramm").data ∨ u = ("ml").data ∨
     u = ("stk").data ∨ u = ("stück").data then some .toInt
  else if u = ("el").data ∨ u = ("tl").data ∨
          u = ("esslöffel").data ∨ u = ("teelöffel").data ∨
          u = ("tasse").data ∨ u = ("cup").data then some .toHalf
  else if u = ("kg").data ∨ u = ("l").data then some .toTwoDec
  else none

/-- `_apply_round` as defined inline in `src/app.py`. -/
def app_apply_round (unit : Option (List Char)) (x : ℚ) : ℚ :=
  match unit with
  | some u =>
    match app_UNITS_ROUNDING u with
    | some r => applyRule r x
    | none => x
  | none => x

/-- `_format_number` as defined inline in `src/app.py`. -/
def app_format_number (value : ℚ) (preferComma : Bool) : List Char :=
  let txt := if ratAbs (value - (pyRound value : ℚ)) > 1/1000000
             then fixed2 value else intStr (pyRound value)
  let txt := rstripDot (rstripZeros txt)
  if preferComma then txt.map (fun c => if c = '.' then ',' else c) else txt

/-- `scale_line_smart` as defined inline in `src/app.py`. -/
def app_scale_line_smart (line : List Char) (factor : ℚ) : PyResult (List Char) :=
  match app_parse_leading_quantity line with
  | .exn e => .exn e
  | .ok none => .ok line
  | .ok (some p) =>
    match p with
    | .range start stop a b hadComma =>
      let unit := app_detect_unit_after line stop
      let a' := app_apply_round unit (a * factor)
      let b' := app_apply_round unit (b * factor)
      .ok (line.take start ++ app_format_number a' hadComma ++
           '–' :: app_format_number b' hadComma ++ line.drop stop)
    | .single start stop v hadComma =>
      let unit := app_detect_unit_after line stop
      let x := app_apply_round unit (v * factor)
      .ok (line.take start ++ app_format_number x hadComma ++ line.drop stop)

/-- Start offset of a parsed quantity's span. -/
def Parsed.startIdx : Parsed → ℕ
  | .range st _ _ _ _ => st
  | .single st _ _ _ => st

/-- End offset of a parsed quantity's span. -/
def Parsed.stopIdx : Parsed → ℕ
  | .range _ en _ _ _ => en
  | .single _ en _ _ => en

/-- The text `scale_line_smart` splices over the parsed span: the scaled,
rounded and re-formatted numeral, or for a range the two rewritten bounds
joined by an en-dash. -/
def replacementAt (l : List Char) (p : Parsed) (f : ℚ) : List Char :=
  match p with
  | .range _ en a b hc =>
    format_number (apply_round (detect_unit_after l en) (a * f)) hc ++
      '–' :: format_number (apply_round (detect_unit_after l en) (b * f)) hc
  | .single _ en v hc =>
    format_number (apply_round (detect_unit_after l en) (v * f)) hc

/-- The page's extra empty-string guard changes nothing: the glyph matcher
rejects the empty string anyway. -/
theorem app_unicode_eq (txt : List Char) :
    app_unicode_fracs_to_float txt = unicode_fracs_to_float txt := by
  cases txt <;> rfl

theorem app_parse_eq (line : List Char) :
    app_parse_leading_quantity line = parse_leading_quantity line := by
  unfold app_parse_leading_quantity parse_leading_quantity
  simp only [app_unicode_eq]

theorem app_detect_eq (line : List Char) (endIdx : ℕ) :
    app_detect_unit_after line endIdx = detect_unit_after line endIdx := rfl

theorem app_units_eq (u : List Char) :
    app_UNITS_ROUNDING u = UNITS_ROUNDING u := rfl

theorem app_apply_round_eq (unit : Option (List Char)) (x : ℚ) :
    app_apply_round unit x = apply_round unit x := rfl

theorem app_format_eq (value : ℚ) (preferComma : Bool) :
    app_format_number value preferComma = format_number value preferComma := rfl

/-- Splicing a span's own text back between the prefix before `st` and the
suffix from `en` reproduces the whole list. -/
theorem splice_span (l mid : List Char) (st en : ℕ) (hle : st ≤ en)
    (hmid : mid = (l.drop st).take (en - st)) :
    l.take st ++ mid ++ l.drop en = l := by
  subst hmid
  have h1 : st + (en - st) = en := Nat.add_sub_cancel' hle
  calc l.take st ++ (l.drop st).take (en - st) ++ l.drop en
      = l.take (st + (en - st)) ++ l.drop en := by rw [List.take_add]
    _ = l.take en ++ l.drop en := by rw [h1]
    _ = l := List.take_append_drop _ _

/-- C1: the specification guarantees that `scale_line` never raises and at
worst returns the input line unchanged, for every line and positive factor.
The code violates this: on the mixed fraction with zero denominator in
"1 1/0 EL Zucker", `_parse_leading_quantity` evaluates `float(1)/float(0)`
and raises `ZeroDivisionError` instead of returning the line. -/
theorem C1_zero_denominator_raises :
    scale_line_smart (("1 1/0 EL Zucker").data) 2 = .exn .zeroDivisionError ∧
    scale_line_smart (("1 1/0 EL Zucker").data) 2 ≠ .ok (("1 1/0 EL Zucker").data) := by
  decide

/-- C2: when the Quantity Parser finds no leading quantity (none of the four
rules matches, i.e. it returns no match), `scale_line` returns the input line
verbatim, character for character, for every factor. -/
theorem C2_no_quantity_line_unchanged (line : List Char) (factor : ℚ)
    (h : parse_leading_quantity line = .ok none) :
    scale_line_smart line factor = .ok line := by
  unfold scale_line_smart
  rw [h]

/-- C2 witness: the quantity-free line "Mehl und Ei verrühren." is returned
unchanged at factor 7/2. -/
theorem C2_witness :
    scale_line_smart (("Mehl und Ei verrühren.").data) (7/2) =
      .ok (("Mehl und Ei verrühren.").data) :=
  C2_no_quantity_line_unchanged (("Mehl und Ei verrühren.").data) (7/2) (by decide)

/-- C3 counterexample: "1,50 kg Mehl" has a parsed leading quantity (value
3/2, comma style) and the kg rounding rule leaves 3/2 unchanged, yet scaling
by 1 returns "1,5 kg Mehl" ≠ the input, because the formatter re-renders the
numeral canonically.  The claim fails even on canonical numerals whose integer
rendering ends in a zero: "10 g Mehl" at factor 1 becomes "1 g Mehl" through
the formatter's unconditional `rstrip("0")`. -/
theorem C3_counterexample :
    parse_leading_quantity (("1,50 kg Mehl").data) =
      .ok (some (.single 0 4 (3/2) true)) ∧
    apply_round (detect_unit_after (("1,50 kg Mehl").data) 4) (3/2) = 3/2 ∧
    scale_line_smart (("1,50 kg Mehl").data) 1 = .ok (("1,5 kg Mehl").data) ∧
    ("1,5 kg Mehl").data ≠ ("1,50 kg Mehl").data ∧
    scale_line_smart (("10 g Mehl").data) 1 = .ok (("1 g Mehl").data) := by
  decide

/-- C3 as amended: `scale_line(l, 1.0)` returns `l` unchanged whenever the
rewritten numeral text at factor 1 (scale by 1, round by the detected unit's
rule, re-format in the line's numeral style) reproduces the matched span's
original text exactly.  This strengthens the claim's condition "rounding at
factor 1 does not alter the parsed value" just enough to exclude the
counterexamples: non-canonical numerals such as "1,50" or "07", and integer
renderings ending in a trailing zero such as "10". -/
theorem C3_factor_one_fixed_point (l : List Char) (p : Parsed)
    (hp : parse_leading_quantity l = .ok (some p))
    (hrepl : replacementAt l p 1 = (l.drop p.startIdx).take (p.stopIdx - p.startIdx))
    (hle : p.startIdx ≤ p.stopIdx) :
    scale_line_smart l 1 = .ok l := by
  cases p with
  | range st en a b hc =>
    simp only [replacementAt, Parsed.startIdx, Parsed.stopIdx] at hrepl hle
    unfold scale_line_smart
    rw [hp]
    have h2 := splice_span l _ st en hle hrepl
    simp only [List.append_assoc, List.cons_append] at h2 ⊢
    exact congrArg PyResult.ok h2
  | single st en v hc =>
    simp only [replacementAt, Parsed.startIdx, Parsed.stopIdx] at hrepl hle
    unfold scale_line_smart
    rw [hp]
    have h2 := splice_span l _ st en hle hrepl
    simp only [List.append_assoc, List.cons_append] at h2 ⊢
    exact congrArg PyResult.ok h2

/-- C3 witness: "2 EL Zucker" is a fixed point of scaling by 1. -/
theorem C3_witness :
    scale_line_smart (("2 EL Zucker").data) 1 = .ok (("2 EL Zucker").data) :=
  C3_factor_one_fixed_point (("2 EL Zucker").data) (.single 0 1 2 false)
    (by decide) (by decide) (by decide)

/-- C4: the specification says the spoon-measure units el, tl, essloeffel,
teeloeffel, tasse and cup are half-rounded, and that umlaut folding makes
"Esslöffel" hit the same rule.  The code violates this for the folded
spellings: the Unit Detector turns "Esslöffel" into "essloeffel", but the
`UNITS_ROUNDING` dictionary keeps the umlaut key "esslöffel", so the lookup
misses and no rounding happens — "1 Esslöffel Zucker" at factor 5/4 keeps the
unrounded 1.25 while "1 EL Zucker" is correctly half-rounded to 1. -/
theorem C4_umlaut_spelling_misses_table :
    detect_unit_after (("1 Esslöffel Zucker").data) 1 = some (("essloeffel").data) ∧
    UNITS_ROUNDING (("essloeffel").data) = none ∧
    scale_line_smart (("1 Esslöffel Zucker").data) (5/4) =
      .ok (("1.25 Esslöffel Zucker").data) ∧
    scale_line_smart (("1 EL Zucker").data) (5/4) = .ok (("1 EL Zucker").data) := by
  decide

/-- C5 counterexample: `scale_line("½ Tasse Milch", 3.0)` returns
"1.5 Tasse Milch" with a period — not "1,5 Tasse Milch" as the claim's quoted
output states. -/
theorem C5_counterexample :
    scale_line_smart (("½ Tasse Milch").data) 3 = .ok (("1.5 Tasse Milch").data) ∧
    ("1.5 Tasse Milch").data ≠ ("1,5 Tasse Milch").data := by
  decide

/-- C5 as amended: `scale_line("½ Tasse Milch", 3.0)` returns
"1.5 Tasse Milch" (period as decimal separator), and for every quantity
matched by the Unicode-fraction rule (the ranges and mixed-fraction rules
failed and the vulgar-fraction pattern matched the first four stripped
characters) the parser's `prefer_comma` flag is false. -/
theorem C5_unicode_prefer_comma_false :
    scale_line_smart (("½ Tasse Milch").data) 3 = .ok (("1.5 Tasse Milch").data) ∧
    ∀ (l : List Char) (st en : ℕ) (v : ℚ) (hc : Bool),
      rangeMatch (l.dropWhile isPySpace) = none →
      mixedMatch (l.dropWhile isPySpace) = none →
      (unicode_fracs_to_float ((l.dropWhile isPySpace).take 4)).isSome = true →
      parse_leading_quantity l = .ok (some (.single st en v hc)) →
      parse_leading_quantity l = .ok (some (.single st en v false)) := by
  refine ⟨by decide, ?_⟩
  intro l st en v hc h1 h2 h3 h4
  obtain ⟨uf, huf⟩ := Option.isSome_iff_exists.mp h3
  have hcf : hc = false := by
    simp only [parse_leading_quantity] at h4
    rw [h1, h2, huf] at h4
    cases hu : uniMatch (l.dropWhile isPySpace) with
    | none =>
      rw [hu] at h4
      exact PyResult.noConfusion h4
    | some trip =>
      obtain ⟨len, b, v'⟩ := trip
      rw [hu] at h4
      injection h4 with h5
      injection h5 with h6
      injection h6 with e1 e2 e3 e4
      exact e4.symm
  rw [hcf] at h4
  exact h4

/-- C5 witness: "1 ½ EL Honig" goes through the Unicode-fraction rule and
parses with `prefer_comma` = false. -/
theorem C5_witness :
    parse_leading_quantity (("1 ½ EL Honig").data) = .ok (some (.single 0 3 (3/2) false)) :=
  C5_unicode_prefer_comma_false.2 (("1 ½ EL Honig").data) 0 3 (3/2) false
    (by decide) (by decide) (by decide) (by decide)

/-- C6: for every line whose leading quantity parses as a range, both bounds
are independently scaled, rounded by the detected unit's rule and formatted,
and the result splices the two rewritten bounds joined by an en-dash between
the untouched text before the span and from the span's end onward — the
en-dash is emitted regardless of the original separator glyph, since the
output shape does not depend on it. -/
theorem C6_range_rejoined_with_en_dash (l : List Char) (f : ℚ) (st en : ℕ)
    (a b : ℚ) (hc : Bool)
    (hp : parse_leading_quantity l = .ok (some (.range st en a b hc))) :
    scale_line_smart l f =
      .ok (l.take st ++
        format_number (apply_round (detect_unit_after l en) (a * f)) hc ++
        '–' :: format_number (apply_round (detect_unit_after l en) (b * f)) hc ++
        l.drop en) := by
  unfold scale_line_smart
  rw [hp]

/-- C6 witness: "2-3 EL Zucker" (hyphen) and "2—3 EL Zucker" (em-dash) both
scale by 2 to "4–6 EL Zucker" (en-dash). -/
theorem C6_witness :
    scale_line_smart (("2-3 EL Zucker").data) 2 = .ok (("4–6 EL Zucker").data) ∧
    scale_line_smart (("2—3 EL Zucker").data) 2 = .ok (("4–6 EL Zucker").data) := by
  constructor
  · rw [C6_range_rejoined_with_en_dash (("2-3 EL Zucker").data) 2 0 3 2 3 false (by decide)]
    decide
  · rw [C6_range_rejoined_with_en_dash (("2—3 EL Zucker").data) 2 0 3 2 3 false (by decide)]
    decide

/-- C7: the specification says the headerless fallback returns the bullet run
(markers stripped) as ingredients and exactly the lines strictly after that
run as steps.  The code violates the steps half: `lines.index(ing_block[-1])`
looks up the *stripped* text of the last bullet line, which is not an input
line, so the index defaults to 0 and the steps output keeps the bullet lines
from position 1 onward.  For the headerless input below the claim expects
steps = ["Mehl und Ei verrühren."], but the code also emits "- 1 Ei". -/
theorem C7_fallback_steps_contain_bullet_lines :
    guess_sections [("- 200g Mehl").data, ("- 1 Ei").data, ("Mehl und Ei verrühren.").data] =
      ([("200g Mehl").data, ("1 Ei").data],
       [("- 1 Ei").data, ("Mehl und Ei verrühren.").data]) ∧
    ([("- 1 Ei").data, ("Mehl und Ei verrühren.").data] : List (List Char)) ≠
      [("Mehl und Ei verrühren.").data] := by
  decide

/-- C8: the specification's invariant says no input line contributes to both
classifier outputs.  The same fallback index slip as in the previous theorem
violates it: for the headerless bullet input below, the input line "• Zucker"
appears stripped ("Zucker") in the ingredients and verbatim in the steps. -/
theorem C8_line_contributes_to_both_outputs :
    guess_sections [("• Mehl").data, ("• Zucker").data, ("Alles verrühren.").data] =
      ([("Mehl").data, ("Zucker").data],
       [("• Zucker").data, ("Alles verrühren.").data]) ∧
    bulletSub (("• Zucker").data) = ("Zucker").data ∧
    ("Zucker").data ∈
      (guess_sections [("• Mehl").data, ("• Zucker").data, ("Alles verrühren.").data]).1 ∧
    ("• Zucker").data ∈
      (guess_sections [("• Mehl").data, ("• Zucker").data, ("Alles verrühren.").data]).2 := by
  decide

/-- C9 counterexample: the claim asserts "123 ½" parses to 123.5, but the
code only inspects the first four characters for a vulgar-fraction glyph, so
"123 ½ Tassen" falls through to the simple-number rule and parses to the
value 123 with span [0, 3). -/
theorem C9_counterexample :
    parse_leading_quantity (("123 ½ Tassen").data) = .ok (some (.single 0 3 123 false)) ∧
    (123 : ℚ) ≠ 123 + 1/2 := by
  decide

/-- C9 as amended: the Unicode-fraction rule fires only when the glyph lies
within the first four characters of the stripped line (so at most two integer
digits before a space, three with the glyph adjacent); in that case, and when
the range and mixed-fraction rules fail, the parser yields kind=single with
value = integer part (default 0) plus the glyph's value and
`prefer_comma` = false.  Longer integer prefixes such as "123 ½" are instead
taken by the simple-number rule, dropping the fraction. -/
theorem C9_unicode_rule_needs_glyph_in_first_four (l : List Char)
    (len b len' b' : ℕ) (v v' : ℚ)
    (h1 : rangeMatch (l.dropWhile isPySpace) = none)
    (h2 : mixedMatch (l.dropWhile isPySpace) = none)
    (h3 : uniMatch ((l.dropWhile isPySpace).take 4) = some (len, b, v))
    (h4 : uniMatch (l.dropWhile isPySpace) = some (len', b', v')) :
    parse_leading_quantity l =
      .ok (some (.single (l.length - (l.dropWhile isPySpace).length)
        (l.length - (l.dropWhile isPySpace).length + len') ((b : ℚ) + v) false)) := by
  simp only [parse_leading_quantity, unicode_fracs_to_float]
  rw [h1, h2, h3, h4]

/-- C9 witness: "12 ½ Tassen" (two integer digits, glyph within the first
four characters) parses to 25/2 through the Unicode-fraction rule. -/
theorem C9_witness :
    parse_leading_quantity (("12 ½ Tassen").data) =
      .ok (some (.single 0 4 (25/2) false)) := by
  rw [C9_unicode_rule_needs_glyph_in_first_four (("12 ½ Tassen").data)
    4 12 4 12 (1/2) (1/2) (by decide) (by decide) (by decide) (by decide)]
  decide

/-- C10: the scaler defined inline in the cookbook page of `src/app.py`
computes exactly the same result as `modules/scaling.scale_line_smart` on
every (line, factor) pair — their tables and regexes are identical and the
page's only textual deviation, an early empty-string return in its
`_unicode_fracs_to_float`, is behaviourally inert. -/
theorem C10_page_scaler_equals_module_scaler (line : List Char) (factor : ℚ) :
    app_scale_line_smart line factor = scale_line_smart line factor := by
  unfold app_scale_line_smart scale_line_smart
  rw [app_parse_eq]
  simp only [app_detect_eq, app_apply_round_eq, app_format_eq]
